import Mathlib

/-
Verification development for the image-compressor repository.

This file gives a shallow embedding of the ImageCompressor class in
src/js/main.js and proves properties of its specification against it.
Conventions of the embedding:
- JS numbers that hold byte counts, pixel dimensions and list indices are
  Nat; the quality fraction passed to the encoder is Rat.
- The two asynchronous host boundaries (image decode via Image.onload and
  canvas encode via canvas.toBlob) are modelled by explicit outcome values
  supplied by the host; a run of compressImage is a pure state transformer
  parameterised by those outcomes.
- Math.floor(Math.log bytes / Math.log 1024) is modelled by the exact
  integer floor logarithm; IEEE doubles give the exact value at every
  power of 1024 and at every input appearing in a theorem below.
- Math.round(a / b) on nonnegative integers rounds half up; for the
  magnitudes a canvas bitmap can have, the double quotient is never
  within an ulp of a half-integer unless the rational value is exactly
  one, so exact rational rounding is faithful.
-/

namespace ImageCompressor

/-- A candidate file as the browser hands it over: declared media type,
display name and byte length. -/
structure SourceFile where
  type : String
  name : String
  size : Nat
deriving DecidableEq, Repr

/-- A decoded bitmap: width and height in pixels. -/
structure Bitmap where
  width : Nat
  height : Nat
deriving DecidableEq, Repr

/-- The binary object produced by canvas.toBlob: its media type and byte
length. Object URLs referencing a blob are modelled by the blob itself. -/
structure Blob where
  mimeType : String
  size : Nat
deriving DecidableEq, Repr

/-- Boolean test that the pattern is a leading segment of the character
list, mirroring a regex engine trying a match at one position. -/
def listStartsWith : List Char → List Char → Bool
  | [], _ => true
  | _ :: _, [] => false
  | c :: cs, d :: ds => c == d && listStartsWith cs ds

/-- The literal alternative image/jpeg of the validation regex. -/
def jpegPat : List Char := "image/jpeg".data

/-- The literal alternative image/png of the validation regex. -/
def pngPat : List Char := "image/png".data

/-- file.type.match(/image\/(jpeg|png)/) from validateFile: the regex is
unanchored, so the engine searches for a match starting at every
position of the subject string. -/
def reSearchImage : List Char → Bool
  | [] => false
  | c :: cs => listStartsWith jpegPat (c :: cs) || listStartsWith pngPat (c :: cs) || reSearchImage cs

/-- The alert text shown by validateFile on a wrong media type. -/
def alertText : String := "请上传PNG或JPG格式的图片！"

/-- validateFile from src/js/main.js. The candidate is Option-valued
because e.target.files[0] and e.dataTransfer.files[0] may be absent.
The result pairs the returned boolean with the list of alert messages
the call surfaces: a missing file returns false with no alert, a file
whose declared type the regex does not match returns false after
alerting, and otherwise the call returns true silently. -/
def validateFile : Option SourceFile → Bool × List String
  | none => (false, [])
  | some f =>
      if reSearchImage f.type.data then (true, [])
      else (false, [alertText])

/-- Math.round(a / b) for nonnegative integers: halves round up. -/
def jsRound (a b : Nat) : Nat := (2 * a + b) / (2 * b)

/-- The dimension-limiting block of compressImage: if either side exceeds
maxSize = 1920, the longer side becomes 1920 and the shorter side is
scaled proportionally with Math.round; otherwise the dimensions pass
through unchanged. -/
def resize (bm : Bitmap) : Bitmap :=
  if 1920 < bm.width ∨ 1920 < bm.height then
    if bm.height < bm.width then
      ⟨1920, jsRound (bm.height * 1920) bm.width⟩
    else
      ⟨jsRound (bm.width * 1920) bm.height, 1920⟩
  else bm

/-- The unit list of formatFileSize. -/
def sizes : List String := ["Bytes", "KB", "MB"]

/-- Fuel-driven floor logarithm base 1024. -/
def logFloorAux : Nat → Nat → Nat
  | 0, _ => 0
  | fuel + 1, n => if n < 1024 then 0 else logFloorAux fuel (n / 1024) + 1

/-- The unit index i = Math.floor(Math.log bytes / Math.log 1024) of
formatFileSize, modelled by the exact integer floor logarithm. -/
def unitIndex (bytes : Nat) : Nat := logFloorAux bytes bytes

/-- (bytes / 1024 ^ i).toFixed(2) as an integer count of hundredths:
the scaled value times 100, rounded half up. -/
def hundredths (bytes i : Nat) : Nat :=
  (200 * bytes + 1024 ^ i) / (2 * 1024 ^ i)

/-- parseFloat applied to the toFixed(2) string, then converted back to a
string by JS number-to-string: the fixed two-decimal form with trailing
fractional zeros removed, and the decimal point removed when nothing
follows it. -/
def renderNumber (h : Nat) : String :=
  let intPart := h / 100
  let frac := h % 100
  if frac = 0 then toString intPart
  else if frac % 10 = 0 then toString intPart ++ "." ++ toString (frac / 10)
  else if frac < 10 then toString intPart ++ ".0" ++ toString frac
  else toString intPart ++ "." ++ toString frac

/-- formatFileSize from src/js/main.js. For an index past the end of the
unit list, JS reads undefined from sizes[i] and string concatenation
renders it as the text undefined; List.getD with that default models it. -/
def formatFileSize (bytes : Nat) : String :=
  if bytes = 0 then "0 Bytes"
  else renderNumber (hundredths bytes (unitIndex bytes)) ++ " " ++ sizes.getD (unitIndex bytes) "undefined"

/-- The unit component of the string formatFileSize returns for a
nonzero byte count. -/
def unitOf (bytes : Nat) : String := sizes.getD (unitIndex bytes) "undefined"

/-- The outcome of the asynchronous image decode. compressImage installs
only an onload handler, so on a decode failure no callback of the run
ever fires. -/
inductive DecodeOutcome where
  | ok (bm : Bitmap)
  | failure
deriving DecidableEq, Repr

/-- The outcome of canvas.toBlob. On an encode failure the host invokes
the callback with null; the callback body then throws inside
URL.createObjectURL before writing any field. -/
inductive EncodeOutcome where
  | ok (blob : Blob)
  | failure
deriving DecidableEq, Repr

/-- The controller fields that the claims observe. The compressed
preview img element holds an object URL; the blob that URL references
is stored directly. -/
structure CState where
  currentFile : Option SourceFile
  originalPreviewFile : Option SourceFile
  originalSizeText : Option String
  compressedPreviewBlob : Option Blob
  compressedSizeText : Option String
deriving DecidableEq, Repr

/-- The pristine controller state right after construction. -/
def initialState : CState := ⟨none, none, none, none, none⟩

/-- The body of the toBlob callback in compressImage: it sets the
compressed preview to an object URL of the blob and the compressed size
text to the formatted byte length; no other controller field is touched. -/
def toBlobCallback (s : CState) (blob : Blob) : CState :=
  { s with compressedPreviewBlob := some blob,
           compressedSizeText := some (formatFileSize blob.size) }

/-- One run of compressImage as a state transformer, parameterised by the
host outcomes of its two asynchronous steps. Before a callback fires the
run mutates no controller field, so the effect of a run on the state is
exactly the effect of its callbacks. A decode failure fires nothing
(no onerror handler is installed); an encode failure reaches the callback
with a null blob and throws before the first assignment. The quality
argument is forwarded to the host encoder and does not influence which
fields are written. -/
def compressImageRun (s : CState) (file : SourceFile) (q : ℚ)
    (d : DecodeOutcome) (e : EncodeOutcome) : CState :=
  match d with
  | .failure => s
  | .ok _ =>
    match e with
    | .failure => s
    | .ok blob => toBlobCallback s blob

/-- The encode request compressImage hands to canvas.toBlob on a
successful decode: the canvas carries the resized bitmap, the media type
argument is file.type, the quality is the callers fraction. -/
structure EncodeRequest where
  bitmap : Bitmap
  mimeType : String
  quality : ℚ

/-- The toBlob invocation of compressImage for a decoded bitmap. -/
def encodeRequestOf (file : SourceFile) (bm : Bitmap) (q : ℚ) : EncodeRequest :=
  ⟨resize bm, file.type, q⟩

/-- A fully successful run of compressImage in which the host encoder enc
answers the encode request compressImage issues. -/
def compressImageSuccess (enc : EncodeRequest → Blob) (s : CState)
    (file : SourceFile) (q : ℚ) (bm : Bitmap) : CState :=
  compressImageRun s file q (.ok bm) (.ok (enc (encodeRequestOf file bm q)))

/-- handleFile from src/js/main.js: records the file, shows the original
preview and its formatted size, then runs compressImage on it. -/
def handleFile (s : CState) (file : SourceFile) (q : ℚ)
    (d : DecodeOutcome) (e : EncodeOutcome) : CState :=
  compressImageRun
    { s with currentFile := some file,
             originalPreviewFile := some file,
             originalSizeText := some (formatFileSize file.size) }
    file q d e

/-- The change and drop handlers of bindEvents: the candidate file is
validated and handleFile runs only when validateFile returns true; a
missing candidate is rejected by validateFile, so handleFile is not
reached. -/
def onFileSelected (s : CState) (candidate : Option SourceFile) (q : ℚ)
    (d : DecodeOutcome) (e : EncodeOutcome) : CState :=
  match candidate with
  | none => s
  | some f => if (validateFile (some f)).1 then handleFile s f q d e else s

/-- The input handler of the quality slider: when a current file is held,
compressImage runs on it at value / 100; otherwise only the percentage
label changes. -/
def onQualityInput (s : CState) (v : Nat) (d : DecodeOutcome) (e : EncodeOutcome) : CState :=
  match s.currentFile with
  | none => s
  | some f => compressImageRun s f ((v : ℚ) / 100) d e

/-- A dispatched compressImage run awaiting its completion: the file and
quality it was started with and the host outcomes of its steps. -/
structure PendingRun where
  file : SourceFile
  quality : ℚ
  d : DecodeOutcome
  e : EncodeOutcome

/-- Applies the completion callbacks of one pending run to the state. -/
def applyCompletion (s : CState) (r : PendingRun) : CState :=
  compressImageRun s r.file r.quality r.d r.e

/-- The event loop processing a list of run completions in order. Since a
dispatch mutates no controller field, the state reached by overlapping
runs is the fold of their completions in completion order. -/
def runSchedule (s : CState) (completions : List PendingRun) : CState :=
  completions.foldl applyCompletion s

/-- The click payload of downloadImage: the download attribute and the
blob that the href object URL references. -/
structure DownloadAction where
  downloadName : String
  blob : Blob
deriving DecidableEq, Repr

/-- downloadImage from src/js/main.js: nothing happens when the
compressed preview holds no source; otherwise a link pointing at the
current result is clicked, named by prefixing the text compressed_ to
the current file name. The event flow sets currentFile before any
compressed result exists, so the map over currentFile never loses a
case reachable from initialState. -/
def downloadImage (s : CState) : Option DownloadAction :=
  match s.compressedPreviewBlob with
  | none => none
  | some b => s.currentFile.map (fun f => ⟨"compressed_" ++ f.name, b⟩)

/-- The download button handler: it reads the controller state, writes no
controller field, and yields the save action, if any. -/
def downloadClick (s : CState) : CState × Option DownloadAction :=
  (s, downloadImage s)

theorem listStartsWith_iff (p s : List Char) : listStartsWith p s = true ↔ p <+: s := by
  induction p generalizing s with
  | nil => simp [listStartsWith]
  | cons c cs ih =>
    cases s with
    | nil => simp [listStartsWith]
    | cons d ds => simp [listStartsWith, ih, List.cons_prefix_cons]

theorem reSearchImage_iff (s : List Char) :
    reSearchImage s = true ↔ jpegPat <:+: s ∨ pngPat <:+: s := by
  induction s with
  | nil => decide
  | cons c cs ih =>
    simp only [reSearchImage, Bool.or_eq_true, listStartsWith_iff, ih, List.infix_cons_iff]
    tauto

/-- C1 counterexample: a candidate whose declared media type is
image/jpeg2000 is accepted by validateFile, although that type is
neither image/jpeg nor image/png, because the validation regex is
unanchored and matches a substring. -/
theorem C1_counterexample_jpeg2000 :
    (validateFile (some ⟨"image/jpeg2000", "a.jp2", 10⟩)).1 = true ∧
    ("image/jpeg2000" : String) ≠ "image/jpeg" ∧
    ("image/jpeg2000" : String) ≠ "image/png" := by
  decide

/-- C1 (amended): validateFile returns true iff the candidate is present
and its declared media type contains image/jpeg or image/png as a
substring; whenever it returns false, the file-selection handler leaves
the controller state unchanged, so no pipeline run starts. -/
theorem C1_validateFile_characterization (c : Option SourceFile) :
    ((validateFile c).1 = true ↔
      ∃ f, c = some f ∧ (jpegPat <:+: f.type.data ∨ pngPat <:+: f.type.data)) ∧
    ((validateFile c).1 = false →
      ∀ (s : CState) (q : ℚ) (d : DecodeOutcome) (e : EncodeOutcome),
        onFileSelected s c q d e = s) := by
  constructor
  · cases c with
    | none => simp [validateFile]
    | some f =>
      by_cases hm : reSearchImage f.type.data
      · simp [validateFile, hm, (reSearchImage_iff f.type.data).mp hm]
      · have hnot : ¬ (jpegPat <:+: f.type.data ∨ pngPat <:+: f.type.data) := by
          intro hcon
          exact hm ((reSearchImage_iff f.type.data).mpr hcon)
        simp [validateFile, hm, hnot]
  · intro hfalse s q d e
    cases c with
    | none => rfl
    | some f => simp [onFileSelected, hfalse]

/-- C1 witness: a PNG candidate is accepted; a plain-text candidate is
rejected and the selection handler is a no-op on it. -/
theorem C1_witness :
    (validateFile (some ⟨"image/png", "x.png", 7⟩)).1 = true ∧
    onFileSelected initialState (some ⟨"text/plain", "a.txt", 3⟩) (4 / 5) .failure .failure
      = initialState :=
  ⟨(C1_validateFile_characterization (some ⟨"image/png", "x.png", 7⟩)).1.mpr
      ⟨⟨"image/png", "x.png", 7⟩, rfl, Or.inr (by decide)⟩,
    (C1_validateFile_characterization (some ⟨"text/plain", "a.txt", 3⟩)).2 (by decide)
      initialState (4 / 5) .failure .failure⟩

/-- C8 counterexample: for an absent candidate, validateFile returns
false without surfacing any alert, while the claim requires the alert
message to be shown for this rejection as well. -/
theorem C8_counterexample_missing_file :
    (validateFile none).1 = false ∧ alertText ∉ (validateFile none).2 := by
  decide

/-- C8 (amended): every rejected validation returns false rather than
throwing and the pipeline never starts; the blocking alert with the
fixed literal message is surfaced exactly when a present candidate has
a wrong declared type, while an absent candidate is rejected silently. -/
theorem C8_rejection_behavior (c : Option SourceFile) (h : (validateFile c).1 = false) :
    (c ≠ none → (validateFile c).2 = [alertText]) ∧
    (c = none → (validateFile c).2 = []) ∧
    ∀ (s : CState) (q : ℚ) (d : DecodeOutcome) (e : EncodeOutcome),
      onFileSelected s c q d e = s := by
  cases c with
  | none =>
    exact ⟨fun hne => absurd rfl hne, fun _ => rfl, fun s q d e => rfl⟩
  | some f =>
    by_cases hm : reSearchImage f.type.data
    · simp [validateFile, hm] at h
    · refine ⟨fun _ => ?_, ?_, ?_⟩
      · simp [validateFile, hm]
      · intro hc
        exact absurd hc (Option.some_ne_none f)
      · intro s q d e
        simp [onFileSelected, h]

/-- C8 witness: a GIF candidate triggers exactly the fixed alert and the
selection handler leaves the state unchanged. -/
theorem C8_witness :
    (validateFile (some ⟨"image/gif", "a.gif", 9⟩)).2 = [alertText] ∧
    onFileSelected initialState (some ⟨"image/gif", "a.gif", 9⟩) (4 / 5) .failure .failure
      = initialState :=
  ⟨(C8_rejection_behavior (some ⟨"image/gif", "a.gif", 9⟩) (by decide)).1 (by decide),
    (C8_rejection_behavior (some ⟨"image/gif", "a.gif", 9⟩) (by decide)).2.2
      initialState (4 / 5) .failure .failure⟩

/-- C3 counterexample: formatFileSize(1024) renders as 1 KB, not as the
1.00 KB the claim states, because parseFloat applied to the toFixed(2)
string drops the trailing fractional zeros. -/
theorem C3_counterexample_trailing_zeros :
    formatFileSize 1024 = "1 KB" ∧ formatFileSize 1024 ≠ "1.00 KB" := by
  decide

/-- C3 (amended): formatFileSize rounds the scaled value to two decimals
and then trims it to the shortest representation via parseFloat, so
trailing zeros are removed: formatFileSize(0) is 0 Bytes,
formatFileSize(1024) is 1 KB, formatFileSize(1536) is 1.5 KB and
formatFileSize(1048576) is 1 MB. -/
theorem C3_formatFileSize_values :
    formatFileSize 0 = "0 Bytes" ∧ formatFileSize 1024 = "1 KB" ∧
    formatFileSize 1536 = "1.5 KB" ∧ formatFileSize 1048576 = "1 MB" := by
  decide

theorem jsRound_scale_le (a b : Nat) (hb : 0 < b) (hab : a ≤ b) :
    jsRound (a * 1920) b ≤ 1920 := by
  have h2b : 0 < 2 * b := by omega
  have hlt : (2 * (a * 1920) + b) / (2 * b) < 1921 := by
    rw [Nat.div_lt_iff_lt_mul h2b]
    omega
  exact Nat.lt_succ_iff.mp hlt

/-- C4: for a bitmap whose longer side exceeds 1920, resize yields a
bitmap whose longer side is exactly 1920 and whose shorter side is the
proportional value rounded to the nearest integer pixel. -/
theorem C4_resize_shrinks_longer_side (bm : Bitmap) (h : 1920 < max bm.width bm.height) :
    max (resize bm).width (resize bm).height = 1920 ∧
    min (resize bm).width (resize bm).height
      = jsRound (min bm.width bm.height * 1920) (max bm.width bm.height) := by
  rcases lt_or_le bm.height bm.width with hvw | hwv
  · have hw : 1920 < bm.width := by omega
    have hr := jsRound_scale_le bm.height bm.width (by omega) (by omega)
    have hres : resize bm = ⟨1920, jsRound (bm.height * 1920) bm.width⟩ := by
      unfold resize
      rw [if_pos (Or.inl hw), if_pos hvw]
    rw [hres, min_eq_right hvw.le, max_eq_left hvw.le]
    exact ⟨max_eq_left hr, min_eq_right hr⟩
  · have hv : 1920 < bm.height := by omega
    have hr := jsRound_scale_le bm.width bm.height (by omega) hwv
    have hres : resize bm = ⟨jsRound (bm.width * 1920) bm.height, 1920⟩ := by
      unfold resize
      rw [if_pos (Or.inr hv), if_neg (not_lt.mpr hwv)]
    rw [hres, min_eq_left hwv, max_eq_right hwv]
    exact ⟨max_eq_right hr, min_eq_left hr⟩

/-- C4 witness: a 3000 by 2000 bitmap is resized so its longer side is
1920 and its shorter side is the rounded proportional value. -/
theorem C4_witness :
    max (resize ⟨3000, 2000⟩).width (resize ⟨3000, 2000⟩).height = 1920 ∧
    min (resize ⟨3000, 2000⟩).width (resize ⟨3000, 2000⟩).height
      = jsRound (min 3000 2000 * 1920) (max 3000 2000) :=
  C4_resize_shrinks_longer_side ⟨3000, 2000⟩ (by decide)

/-- C5: for a bitmap with both sides at most 1920, resize is the
identity on the dimensions. -/
theorem C5_resize_identity (bm : Bitmap) (h : max bm.width bm.height ≤ 1920) :
    resize bm = bm := by
  unfold resize
  rw [if_neg (by omega)]

/-- C5 witness: a 100 by 100 bitmap passes through resize unchanged. -/
theorem C5_witness : resize ⟨100, 100⟩ = ⟨100, 100⟩ :=
  C5_resize_identity ⟨100, 100⟩ (by decide)

/-- C6: compressImage invokes the encoder with the media type of the
source file, and for any host encoder that honours the requested type
the displayed result of a successful run carries exactly the source
type: no format conversion happens in the pipeline. -/
theorem C6_mediaType_invariant (enc : EncodeRequest → Blob)
    (henc : ∀ r, (enc r).mimeType = r.mimeType)
    (s : CState) (file : SourceFile) (q : ℚ) (bm : Bitmap) :
    (encodeRequestOf file bm q).mimeType = file.type ∧
    ((compressImageSuccess enc s file q bm).compressedPreviewBlob).map Blob.mimeType
      = some file.type := by
  refine ⟨rfl, ?_⟩
  simp [compressImageSuccess, compressImageRun, toBlobCallback, henc, encodeRequestOf]

/-- C6 witness: a successful run over a type-honouring host encoder
displays a result whose media type is the JPEG type of the source. -/
theorem C6_witness :
    ((compressImageSuccess (fun r => ⟨r.mimeType, 42⟩) initialState
        ⟨"image/jpeg", "p.jpg", 5⟩ (4 / 5) ⟨100, 100⟩).compressedPreviewBlob).map Blob.mimeType
      = some "image/jpeg" :=
  (C6_mediaType_invariant (fun r => ⟨r.mimeType, 42⟩) (fun _ => rfl) initialState
    ⟨"image/jpeg", "p.jpg", 5⟩ (4 / 5) ⟨100, 100⟩).2

/-- C7: a run whose decode or encode step fails leaves every controller
field unchanged, so the previously displayed preview, result and size
strings survive intact, and any subsequent file selection behaves
exactly as it would from the undisturbed state. -/
theorem C7_failure_terminal (s : CState) (file : SourceFile) (q : ℚ)
    (d : DecodeOutcome) (e : EncodeOutcome)
    (h : d = .failure ∨ e = .failure) :
    compressImageRun s file q d e = s ∧
    ∀ (c : Option SourceFile) (q2 : ℚ) (d2 : DecodeOutcome) (e2 : EncodeOutcome),
      onFileSelected (compressImageRun s file q d e) c q2 d2 e2 = onFileSelected s c q2 d2 e2 := by
  have hid : compressImageRun s file q d e = s := by
    rcases h with h | h
    · subst h
      rfl
    · subst h
      cases d <;> rfl
  exact ⟨hid, fun c q2 d2 e2 => by rw [hid]⟩

/-- C7 witness: after a decode failure the state is untouched and a new
file selection proceeds exactly as from the prior state. -/
theorem C7_witness :
    compressImageRun initialState ⟨"image/png", "a.png", 9⟩ (4 / 5) .failure (.ok ⟨"image/png", 7⟩)
      = initialState ∧
    onFileSelected
        (compressImageRun initialState ⟨"image/png", "a.png", 9⟩ (4 / 5) .failure (.ok ⟨"image/png", 7⟩))
        (some ⟨"image/jpeg", "b.jpg", 11⟩) (1 / 2) (.ok ⟨64, 64⟩) (.ok ⟨"image/jpeg", 6⟩)
      = onFileSelected initialState
        (some ⟨"image/jpeg", "b.jpg", 11⟩) (1 / 2) (.ok ⟨64, 64⟩) (.ok ⟨"image/jpeg", 6⟩) := by
  have h := C7_failure_terminal initialState ⟨"image/png", "a.png", 9⟩ (4 / 5) .failure
    (.ok ⟨"image/png", 7⟩) (Or.inl rfl)
  exact ⟨h.1, h.2 _ _ _ _⟩

/-- C2: evaluation of the code at the failing schedule. The user issues
quality changes 30 then 90; since a dispatch mutates no controller field,
the state trace of the race is the dispatched runs folded in completion
order, and the listed schedule completes the quality-0.9 run before the
quality-0.3 run, a permutation of the dispatch order. With no sequence
guard in the toBlob callback, the stale quality-0.3 blob is the finally
displayed result, although it differs from the quality-0.9 blob. -/
theorem C2_stale_completion_displayed :
    List.Perm
      [PendingRun.mk ⟨"image/jpeg", "photo.jpg", 300000⟩ (30 / 100) (.ok ⟨100, 100⟩)
          (.ok ⟨"image/jpeg", 51200⟩),
        PendingRun.mk ⟨"image/jpeg", "photo.jpg", 300000⟩ (90 / 100) (.ok ⟨100, 100⟩)
          (.ok ⟨"image/jpeg", 81920⟩)]
      [PendingRun.mk ⟨"image/jpeg", "photo.jpg", 300000⟩ (90 / 100) (.ok ⟨100, 100⟩)
          (.ok ⟨"image/jpeg", 81920⟩),
        PendingRun.mk ⟨"image/jpeg", "photo.jpg", 300000⟩ (30 / 100) (.ok ⟨100, 100⟩)
          (.ok ⟨"image/jpeg", 51200⟩)] ∧
    (runSchedule ⟨some ⟨"image/jpeg", "photo.jpg", 300000⟩, none, none, none, none⟩
        [PendingRun.mk ⟨"image/jpeg", "photo.jpg", 300000⟩ (90 / 100) (.ok ⟨100, 100⟩)
            (.ok ⟨"image/jpeg", 81920⟩),
          PendingRun.mk ⟨"image/jpeg", "photo.jpg", 300000⟩ (30 / 100) (.ok ⟨100, 100⟩)
            (.ok ⟨"image/jpeg", 51200⟩)]).compressedPreviewBlob
      = some ⟨"image/jpeg", 51200⟩ ∧
    (⟨"image/jpeg", 51200⟩ : Blob) ≠ ⟨"image/jpeg", 81920⟩ :=
  ⟨List.Perm.swap _ _ _, rfl, by decide⟩

/-- C9: when the compressed preview holds no result the download handler
does nothing; when it holds a blob the handler saves that blob under the
original display name prefixed with compressed_; the handler writes no
controller field, so repeating it against the same state produces the
identical save action again. -/
theorem C9_download_behavior (s : CState) (f : SourceFile) (hf : s.currentFile = some f) :
    (s.compressedPreviewBlob = none → downloadClick s = (s, none)) ∧
    (∀ b : Blob, s.compressedPreviewBlob = some b →
      downloadClick s = (s, some ⟨"compressed_" ++ f.name, b⟩)) ∧
    (downloadClick s).1 = s ∧
    downloadClick (downloadClick s).1 = downloadClick s := by
  refine ⟨?_, ?_, rfl, rfl⟩
  · intro h
    simp [downloadClick, downloadImage, h]
  · intro b h
    simp [downloadClick, downloadImage, h, hf]

/-- C9 witness: with a 300 byte PNG result held for pic.png, the
download handler emits the save of that blob named compressed_pic.png. -/
theorem C9_witness :
    downloadClick
        ⟨some ⟨"image/png", "pic.png", 500⟩, some ⟨"image/png", "pic.png", 500⟩,
          some "500 Bytes", some ⟨"image/png", 300⟩, some "300 Bytes"⟩
      = (⟨some ⟨"image/png", "pic.png", 500⟩, some ⟨"image/png", "pic.png", 500⟩,
          some "500 Bytes", some ⟨"image/png", 300⟩, some "300 Bytes"⟩,
          some ⟨"compressed_" ++ "pic.png", ⟨"image/png", 300⟩⟩) :=
  (C9_download_behavior _ ⟨"image/png", "pic.png", 500⟩ rfl).2.1 ⟨"image/png", 300⟩ rfl

theorem logFloorAux_spec (fuel : Nat) : ∀ n : Nat, 1 ≤ n → n ≤ fuel →
    1024 ^ logFloorAux fuel n ≤ n ∧ n < 1024 ^ (logFloorAux fuel n + 1) := by
  induction fuel with
  | zero =>
    intro n h1 h2
    omega
  | succ fuel ih =>
    intro n h1 h2
    by_cases hn : n < 1024
    · simp only [logFloorAux, if_pos hn]
      constructor
      · simpa using h1
      · simpa using hn
    · have hrec := ih (n / 1024) (by omega) (by omega)
      simp only [logFloorAux, if_neg hn]
      constructor
      · calc 1024 ^ (logFloorAux fuel (n / 1024) + 1)
            = 1024 ^ logFloorAux fuel (n / 1024) * 1024 := pow_succ 1024 _
          _ ≤ n / 1024 * 1024 := Nat.mul_le_mul_right 1024 hrec.1
          _ ≤ n := Nat.div_mul_le_self n 1024
      · have hlt : n < 1024 ^ (logFloorAux fuel (n / 1024) + 1) * 1024 :=
          (Nat.div_lt_iff_lt_mul (by norm_num)).mp hrec.2
        calc n < 1024 ^ (logFloorAux fuel (n / 1024) + 1) * 1024 := hlt
          _ = 1024 ^ (logFloorAux fuel (n / 1024) + 1 + 1) := (pow_succ 1024 _).symm

theorem unitIndex_spec (n : Nat) (h : 1 ≤ n) :
    1024 ^ unitIndex n ≤ n ∧ n < 1024 ^ (unitIndex n + 1) :=
  logFloorAux_spec n n h (le_refl n)

/-- C10: for a positive byte count below 1024 cubed, the computed unit
index of formatFileSize stays inside the three-element unit list; from
1024 cubed on it falls out of bounds, the JS indexing yields undefined,
and the unit component of the returned string is the text undefined,
which is not one of the three defined units. -/
theorem C10_unitIndex_bounds (bytes : Nat) (h : 1 ≤ bytes) :
    (bytes < 1024 ^ 3 → unitIndex bytes < sizes.length) ∧
    (1024 ^ 3 ≤ bytes →
      sizes.length ≤ unitIndex bytes ∧ unitOf bytes = "undefined" ∧ "undefined" ∉ sizes) := by
  obtain ⟨hle, hlt⟩ := unitIndex_spec bytes h
  constructor
  · intro hb
    have hpow : 1024 ^ unitIndex bytes < 1024 ^ 3 := lt_of_le_of_lt hle hb
    have hidx : unitIndex bytes < 3 := (Nat.pow_lt_pow_iff_right (by norm_num)).mp hpow
    simpa [sizes] using hidx
  · intro hb
    have h3 : 3 ≤ unitIndex bytes := by
      by_contra hc
      push_neg at hc
      have hup : 1024 ^ (unitIndex bytes + 1) ≤ 1024 ^ 3 :=
        Nat.pow_le_pow_right (by norm_num) (by omega)
      omega
    refine ⟨by simpa [sizes] using h3, ?_, by decide⟩
    unfold unitOf
    rw [List.getD_eq_default]
    simpa [sizes] using h3

/-- C10 witness: 5 bytes gives an in-bounds index, while 1024 cubed
gives an out-of-bounds index whose unit component is undefined. -/
theorem C10_witness :
    unitIndex 5 < sizes.length ∧
    sizes.length ≤ unitIndex (1024 ^ 3) ∧ unitOf (1024 ^ 3) = "undefined" :=
  ⟨(C10_unitIndex_bounds 5 (by norm_num)).1 (by norm_num),
    ((C10_unitIndex_bounds (1024 ^ 3) (by norm_num)).2 (le_refl _)).1,
    ((C10_unitIndex_bounds (1024 ^ 3) (by norm_num)).2 (le_refl _)).2.1⟩

end ImageCompressor
